import Mathlib

/-!
Shallow embedding of the mdcat-ratatui core: terminal-identity detection
(`src/terminal/detect.rs`), the capability table, style layering
(`pulldown-cmark-mdcat/src/theme.rs`), and the SVG rasterization pipeline
(`pulldown-cmark-mdcat/src/resources/svg.rs`), with theorems checking the
specification's claims against these definitions.
-/

/-- A terminal application (`TerminalProgram` in `src/terminal/detect.rs`). -/
inductive TerminalProgram where
  | Dumb
  | Ansi
  | ITerm2
  | Terminology
  | Kitty
  | WezTerm
deriving DecidableEq, Repr

/-- The slice of the process environment consulted by detection: the values of
the `TERM`, `TERM_PROGRAM` and `TERMINOLOGY` variables, `none` when the
variable is unset (`std::env::var(..).ok()` yielding `Err`). -/
structure Env where
  TERM : Option String
  TERM_PROGRAM : Option String
  TERMINOLOGY : Option String
deriving DecidableEq, Repr

/-- `TerminalProgram::detect_term`: classify from `$TERM`.  The Rust `match`
over the string literals `"wezterm"` and `"xterm-kitty"` (in that order) is
rendered as the corresponding sequential equality tests. -/
def TerminalProgram.detect_term (env : Env) : Option TerminalProgram :=
  if env.TERM = some "wezterm" then some .WezTerm
  else if env.TERM = some "xterm-kitty" then some .Kitty
  else none

/-- `TerminalProgram::detect_term_program`: classify from `$TERM_PROGRAM`,
matching the literals `"WezTerm"` then `"iTerm.app"`. -/
def TerminalProgram.detect_term_program (env : Env) : Option TerminalProgram :=
  if env.TERM_PROGRAM = some "WezTerm" then some .WezTerm
  else if env.TERM_PROGRAM = some "iTerm.app" then some .ITerm2
  else none

/-- `TerminalProgram::detect`:
`Self::detect_term().or_else(Self::detect_term_program).or_else(<TERMINOLOGY
match>).unwrap_or(Self::Ansi)`. -/
def TerminalProgram.detect (env : Env) : TerminalProgram :=
  (((TerminalProgram.detect_term env).orElse fun _ =>
      TerminalProgram.detect_term_program env).orElse fun _ =>
        if env.TERMINOLOGY = some "1" then some .Terminology else none).getD .Ansi

/-- Modelled from the spec: the six-rule precedence cascade of spec section 4.1,
stated in the spec's own rule order, used to compare against
`TerminalProgram.detect`. -/
def detect_cascade (env : Env) : TerminalProgram :=
  if env.TERM = some "xterm-kitty" then .Kitty
  else if env.TERM = some "wezterm" then .WezTerm
  else if env.TERM_PROGRAM = some "WezTerm" then .WezTerm
  else if env.TERM_PROGRAM = some "iTerm.app" then .ITerm2
  else if env.TERMINOLOGY = some "1" then .Terminology
  else .Ansi

/-- The sixteen named ANSI colours of `anstyle::AnsiColor`. -/
inductive AnsiColor where
  | Black | Red | Green | Yellow | Blue | Magenta | Cyan | White
  | BrightBlack | BrightRed | BrightGreen | BrightYellow
  | BrightBlue | BrightMagenta | BrightCyan | BrightWhite
deriving DecidableEq, Repr

/-- `anstyle::Color`: a named ANSI colour, a 256-colour palette index, or an
RGB triple. -/
inductive Color where
  | Ansi (c : AnsiColor)
  | Ansi256 (idx : Nat)
  | Rgb (r g b : Nat)
deriving DecidableEq, Repr

/-- `anstyle::Style`: the four independently optional attributes the source's
`on_top_of` reads and writes — foreground, background and underline colour,
plus the effect flags.  `anstyle::Effects` is a bitflag word, embedded as a
`Nat` bitmask. -/
structure Style where
  fg_color : Option Color
  bg_color : Option Color
  underline_color : Option Color
  effects : Nat
deriving DecidableEq, Repr

/-- The `anstyle::Effects::BOLD` flag bit. -/
def Effects.BOLD : Nat := 1

/-- The `anstyle::Effects::ITALIC` flag bit. -/
def Effects.ITALIC : Nat := 4

/-- The `anstyle::Effects::UNDERLINE` flag bit. -/
def Effects.UNDERLINE : Nat := 8

/-- `CombineStyle::on_top_of` for `Style`
(`pulldown-cmark-mdcat/src/theme.rs`):
`Style::new().fg_color(self.get_fg_color().or(other.get_fg_color()))
.bg_color(self.get_bg_color().or(other.get_bg_color()))
.effects(other.get_effects() | self.get_effects())
.underline_color(self.get_underline_color().or(other.get_underline_color()))`. -/
def Style.on_top_of (s : Style) (other : Style) : Style where
  fg_color := s.fg_color.or other.fg_color
  bg_color := s.bg_color.or other.bg_color
  underline_color := s.underline_color.or other.underline_color
  effects := other.effects ||| s.effects

/-- The text-styling capability; only the ANSI variant exists
(`StyleCapability::Ansi(AnsiStyle)` at its use site in `detect.rs`; the
declaring module is outside the supplied sources). -/
inductive StyleCapability where
  | Ansi
deriving DecidableEq, Repr

/-- The hyperlink capability; only the OSC 8 variant exists
(`LinkCapability::Osc8(Osc8Links)` at its use site in `detect.rs`). -/
inductive LinkCapability where
  | Osc8
deriving DecidableEq, Repr

/-- The inline-image protocol capability: exactly one of the iTerm2, Kitty or
Terminology protocols (variants as used in `detect.rs`). -/
inductive ImageCapability where
  | ITerm2
  | Kitty
  | Terminology
deriving DecidableEq, Repr

/-- The scrollback-mark capability; only the iTerm2 variant exists
(`MarkCapability::ITerm2(ITerm2Marks)` at its use site in `detect.rs`). -/
inductive MarkCapability where
  | ITerm2
deriving DecidableEq, Repr

/-- Modelled from the spec: `TerminalCapabilities`, one optional slot per
rendering feature (section 3, CapabilitySet); the declaring module
`terminal/capabilities.rs` is outside the supplied sources. -/
structure TerminalCapabilities where
  style : Option StyleCapability
  links : Option LinkCapability
  image : Option ImageCapability
  marks : Option MarkCapability
deriving DecidableEq, Repr

/-- Modelled from the spec: `TerminalCapabilities::default()` yields the
all-absent set (section 4.2). -/
def TerminalCapabilities.default : TerminalCapabilities :=
  ⟨none, none, none, none⟩

/-- Modelled from the spec: `with_image_capability(tag)` returns a new set with
only the `image` slot replaced, leaving the others untouched (section 4.2). -/
def TerminalCapabilities.with_image_capability (c : TerminalCapabilities)
    (cap : ImageCapability) : TerminalCapabilities :=
  { c with image := some cap }

/-- Modelled from the spec: `with_mark_capability(tag)` returns a new set with
only the `marks` slot replaced, leaving the others untouched (section 4.2). -/
def TerminalCapabilities.with_mark_capability (c : TerminalCapabilities)
    (cap : MarkCapability) : TerminalCapabilities :=
  { c with marks := some cap }

/-- `TerminalProgram::capabilities` (`src/terminal/detect.rs`): the `ansi`
baseline record, then one arm per terminal program exactly as in the source. -/
def TerminalProgram.capabilities (p : TerminalProgram) : TerminalCapabilities :=
  let ansi : TerminalCapabilities :=
    { style := some .Ansi, links := some .Osc8, image := none, marks := none }
  match p with
  | .Dumb => TerminalCapabilities.default
  | .Ansi => ansi
  | .ITerm2 => (ansi.with_mark_capability .ITerm2).with_image_capability .ITerm2
  | .Terminology => ansi.with_image_capability .Terminology
  | .Kitty => ansi.with_image_capability .Kitty
  | .WezTerm => ansi.with_image_capability .ITerm2

/-- Modelled from the spec: the capability table of section 4.1, row by row,
used to compare against `TerminalProgram.capabilities`. -/
def spec_capability_table : TerminalProgram → TerminalCapabilities
  | .Dumb => ⟨none, none, none, none⟩
  | .Ansi => ⟨some .Ansi, some .Osc8, none, none⟩
  | .ITerm2 => ⟨some .Ansi, some .Osc8, some .ITerm2, some .ITerm2⟩
  | .Terminology => ⟨some .Ansi, some .Osc8, some .Terminology, none⟩
  | .Kitty => ⟨some .Ansi, some .Osc8, some .Kitty, none⟩
  | .WezTerm => ⟨some .Ansi, some .Osc8, some .ITerm2, none⟩

/-- `resvg::tiny_skia::IntSize`: an integer pixel size. -/
structure IntSize where
  width : Nat
  height : Nat
deriving DecidableEq, Repr

/-- Opaque handle for a `usvg::Tree` value of the external usvg library. -/
structure UsvgTree where
  id : Nat
deriving DecidableEq, Repr

/-- Opaque handle for a `resvg::Tree` value of the external resvg library. -/
structure ResvgTree where
  id : Nat
deriving DecidableEq, Repr

/-- Opaque handle for a `tiny_skia::Pixmap` pixel surface. -/
structure Pixmap where
  id : Nat
deriving DecidableEq, Repr

/-- Opaque handle for a `fontdb::Database` font catalog. -/
structure FontDb where
  id : Nat
deriving DecidableEq, Repr

/-- `RenderSvgError` (`pulldown-cmark-mdcat/src/resources/svg.rs`): the three
failure cases of the rasterization pipeline.  The external `usvg::Error` and
the boxed PNG-encoder error are carried as their diagnostic strings. -/
inductive RenderSvgError where
  | ParseError (e : String)
  | FailedToCreatePixmap (size : IntSize)
  | EncodePngError (e : String)
deriving DecidableEq, Repr

/-- `std::io::ErrorKind`, restricted to the kinds this source constructs. -/
inductive ErrorKind where
  | Unsupported
  | Other
deriving DecidableEq, Repr

/-- A `std::io::Error` as constructed by this source: a kind plus a message. -/
structure IoError where
  kind : ErrorKind
  message : String
deriving DecidableEq, Repr

/-- Abstract interface to the external resvg / usvg / tiny-skia calls made by
the pipeline; each field models one external function, kept abstract because
those libraries are outside this repository. -/
structure ResvgBackend where
  from_data : List Nat → Except String UsvgTree
  system_font_db : FontDb
  convert_text : UsvgTree → FontDb → UsvgTree
  from_usvg : UsvgTree → ResvgTree
  to_int_size : ResvgTree → IntSize
  pixmap_new : Nat → Nat → Option Pixmap
  render : ResvgTree → Pixmap → Pixmap
  encode_png : Pixmap → Except String (List Nat)

/-- One step of the rasterization pipeline, recorded for the no-retry check. -/
inductive PipelineOp where
  | parse
  | alloc
  | render
  | encode
deriving DecidableEq, Repr

/-- `parse_svg` (`svg.rs`): `usvg::Tree::from_data`, then text conversion with
the process-wide font catalog (`FONTS.get_or_init`, modelled as reading the
backend's already-built catalog; its cross-thread behaviour is outside this
embedding), then `Tree::from_usvg`.  Also returns the pipeline operations
performed. -/
def parse_svg (B : ResvgBackend) (svg : List Nat) :
    Except RenderSvgError ResvgTree × List PipelineOp :=
  match B.from_data svg with
  | .error e => (.error (.ParseError e), [.parse])
  | .ok tree =>
      let fonts := B.system_font_db
      let tree2 := B.convert_text tree fonts
      (.ok (B.from_usvg tree2), [.parse])

/-- `render_svg_to_png_with_resvg` (`svg.rs`): parse, take the tree's integer
size, allocate a pixmap of that size (`None` becomes
`FailedToCreatePixmap(size)`), render with the identity transform, and encode
to PNG (an encoder error becomes `EncodePngError`).  Also returns the
pipeline operations performed. -/
def render_svg_to_png_with_resvg (B : ResvgBackend) (svg : List Nat) :
    Except RenderSvgError (List Nat) × List PipelineOp :=
  match parse_svg B svg with
  | (.error e, tr) => (.error e, tr)
  | (.ok tree, tr) =>
      let size := B.to_int_size tree
      match B.pixmap_new size.width size.height with
      | none => (.error (.FailedToCreatePixmap size), tr ++ [.alloc])
      | some pixmap =>
          let pixmap2 := B.render tree pixmap
          match B.encode_png pixmap2 with
          | .error err =>
              (.error (.EncodePngError err), tr ++ [.alloc, .render, .encode])
          | .ok png => (.ok png, tr ++ [.alloc, .render, .encode])

/-- `implementation::render_svg_to_png` under `cfg(not(feature = "svg"))`
(`svg.rs`): unconditionally return an `ErrorKind::Unsupported` error without
looking at the input. -/
def ImplementationNoSvg.render_svg_to_png (_svg : List Nat) :
    Except IoError (List Nat) :=
  .error ⟨.Unsupported, "SVG rendering not enabled in this build"⟩

/-- Backend whose `from_data` always fails to parse. -/
def backend_parse_fail : ResvgBackend where
  from_data := fun _ => .error "not an SVG"
  system_font_db := ⟨0⟩
  convert_text := fun t _ => t
  from_usvg := fun t => ⟨t.id⟩
  to_int_size := fun _ => ⟨0, 0⟩
  pixmap_new := fun _ _ => none
  render := fun _ p => p
  encode_png := fun p => .ok [p.id]

/-- Backend that parses but cannot allocate a pixmap for the computed size. -/
def backend_alloc_fail : ResvgBackend where
  from_data := fun _ => .ok ⟨0⟩
  system_font_db := ⟨0⟩
  convert_text := fun t _ => t
  from_usvg := fun t => ⟨t.id⟩
  to_int_size := fun _ => ⟨0, 0⟩
  pixmap_new := fun _ _ => none
  render := fun _ p => p
  encode_png := fun p => .ok [p.id]

/-- Backend that parses and allocates but whose PNG encoder fails. -/
def backend_encode_fail : ResvgBackend where
  from_data := fun _ => .ok ⟨0⟩
  system_font_db := ⟨0⟩
  convert_text := fun t _ => t
  from_usvg := fun t => ⟨t.id⟩
  to_int_size := fun _ => ⟨1, 1⟩
  pixmap_new := fun _ _ => some ⟨0⟩
  render := fun _ p => p
  encode_png := fun _ => .error "png failure"

/-- C1: in every environment where `TERM` is `xterm-kitty`, `detect` returns
`Kitty`, regardless of the values of `TERM_PROGRAM` and `TERMINOLOGY` — in
particular even when `TERM_PROGRAM` is `iTerm.app` at the same time. -/
theorem detect_kitty_overrides (env : Env) (h : env.TERM = some "xterm-kitty") :
    TerminalProgram.detect env = TerminalProgram.Kitty := by
  have hne : env.TERM ≠ some "wezterm" := by
    rw [h]; decide
  simp [TerminalProgram.detect, TerminalProgram.detect_term, h, hne, Option.orElse]

/-- C1 witness: the nested-terminal regression environment, with
`TERM_PROGRAM=iTerm.app` and `TERMINOLOGY=1` both set alongside
`TERM=xterm-kitty`. -/
theorem detect_kitty_overrides_witness :
    TerminalProgram.detect ⟨some "xterm-kitty", some "iTerm.app", some "1"⟩ =
      TerminalProgram.Kitty :=
  detect_kitty_overrides ⟨some "xterm-kitty", some "iTerm.app", some "1"⟩ rfl

/-- C2: `detect` is total and agrees with the spec's six-rule first-match-wins
cascade on every environment; an absent variable matches no rule and
evaluation falls through, ending at `Ansi`. -/
theorem detect_eq_cascade (env : Env) :
    TerminalProgram.detect env = detect_cascade env := by
  unfold TerminalProgram.detect detect_cascade TerminalProgram.detect_term
    TerminalProgram.detect_term_program
  split_ifs <;> simp_all [Option.orElse]

/-- C7: when neither `TERM` rule nor `TERM_PROGRAM` rule matches, `detect`
returns `Terminology` exactly when `TERMINOLOGY` is the literal string `"1"`,
and returns `Ansi` for every other `TERMINOLOGY` value, including unset. -/
theorem detect_terminology_literal (env : Env)
    (h1 : env.TERM ≠ some "xterm-kitty") (h2 : env.TERM ≠ some "wezterm")
    (h3 : env.TERM_PROGRAM ≠ some "WezTerm")
    (h4 : env.TERM_PROGRAM ≠ some "iTerm.app") :
    (TerminalProgram.detect env = TerminalProgram.Terminology ↔
      env.TERMINOLOGY = some "1") ∧
    (env.TERMINOLOGY ≠ some "1" →
      TerminalProgram.detect env = TerminalProgram.Ansi) := by
  unfold TerminalProgram.detect TerminalProgram.detect_term
    TerminalProgram.detect_term_program
  rw [if_neg h2, if_neg h1, if_neg h3, if_neg h4]
  by_cases hty : env.TERMINOLOGY = some "1"
  · rw [if_pos hty]
    exact ⟨by simp [Option.orElse, hty], fun hc => absurd hty hc⟩
  · rw [if_neg hty]
    constructor
    · simp only [Option.orElse, Option.getD]
      exact ⟨fun hc => absurd hc (by decide), fun hc => absurd hc hty⟩
    · intro _
      simp [Option.orElse]

/-- C7 witness: with `TERM=xterm-256color` and `TERM_PROGRAM` unset,
`TERMINOLOGY=1` yields `Terminology` and `TERMINOLOGY=0` yields `Ansi`. -/
theorem detect_terminology_literal_witness :
    TerminalProgram.detect ⟨some "xterm-256color", none, some "1"⟩ =
      TerminalProgram.Terminology ∧
    TerminalProgram.detect ⟨some "xterm-256color", none, some "0"⟩ =
      TerminalProgram.Ansi :=
  ⟨((detect_terminology_literal ⟨some "xterm-256color", none, some "1"⟩
      (by decide) (by decide) (by decide) (by decide)).1).mpr rfl,
   (detect_terminology_literal ⟨some "xterm-256color", none, some "0"⟩
      (by decide) (by decide) (by decide) (by decide)).2 (by decide)⟩

/-- C4: `on_top_of` gives each colour attribute `top`'s value when `top` sets
it and `bottom`'s value otherwise, and its effect flags are exactly the
bitwise union of both sides' effects. -/
theorem on_top_of_merges (top bottom : Style) :
    ((∀ c, top.fg_color = some c → (top.on_top_of bottom).fg_color = some c) ∧
      (top.fg_color = none →
        (top.on_top_of bottom).fg_color = bottom.fg_color)) ∧
    ((∀ c, top.bg_color = some c → (top.on_top_of bottom).bg_color = some c) ∧
      (top.bg_color = none →
        (top.on_top_of bottom).bg_color = bottom.bg_color)) ∧
    ((∀ c, top.underline_color = some c →
        (top.on_top_of bottom).underline_color = some c) ∧
      (top.underline_color = none →
        (top.on_top_of bottom).underline_color = bottom.underline_color)) ∧
    (∀ i, ((top.on_top_of bottom).effects).testBit i =
      (top.effects.testBit i || bottom.effects.testBit i)) := by
  refine ⟨⟨fun c hc => ?_, fun hc => ?_⟩, ⟨fun c hc => ?_, fun hc => ?_⟩,
    ⟨fun c hc => ?_, fun hc => ?_⟩, fun i => ?_⟩
  case _ => simp [Style.on_top_of, hc, Option.or]
  case _ => simp [Style.on_top_of, hc, Option.or]
  case _ => simp [Style.on_top_of, hc, Option.or]
  case _ => simp [Style.on_top_of, hc, Option.or]
  case _ => simp [Style.on_top_of, hc, Option.or]
  case _ => simp [Style.on_top_of, hc, Option.or]
  case _ => simp [Style.on_top_of, Nat.testBit_lor, Bool.or_comm]

/-- C4 witness: a red-foreground bold top over a blue-foreground underlined
bottom keeps red; a colourless top over the same bottom falls back to blue;
the merged effects contain the bold bit of the top. -/
theorem on_top_of_merges_witness :
    (Style.on_top_of ⟨some (.Ansi .Red), none, none, Effects.BOLD⟩
        ⟨some (.Ansi .Blue), none, none, Effects.UNDERLINE⟩).fg_color =
      some (Color.Ansi .Red) ∧
    (Style.on_top_of ⟨none, none, none, Effects.BOLD⟩
        ⟨some (.Ansi .Blue), none, none, Effects.UNDERLINE⟩).fg_color =
      some (Color.Ansi .Blue) ∧
    (Style.on_top_of ⟨some (.Ansi .Red), none, none, Effects.BOLD⟩
        ⟨some (.Ansi .Blue), none, none, Effects.UNDERLINE⟩).effects.testBit 0 =
      true :=
  ⟨(on_top_of_merges ⟨some (.Ansi .Red), none, none, Effects.BOLD⟩
      ⟨some (.Ansi .Blue), none, none, Effects.UNDERLINE⟩).1.1 _ rfl,
   (on_top_of_merges ⟨none, none, none, Effects.BOLD⟩
      ⟨some (.Ansi .Blue), none, none, Effects.UNDERLINE⟩).1.2 rfl,
   by
    have h := (on_top_of_merges ⟨some (.Ansi .Red), none, none, Effects.BOLD⟩
      ⟨some (.Ansi .Blue), none, none, Effects.UNDERLINE⟩).2.2.2 0
    rw [h]; decide⟩

/-- C8: `on_top_of` is not commutative: two styles setting the foreground to
different colours merge differently depending on which is on top. -/
theorem on_top_of_not_commutative :
    ∃ top bottom : Style,
      top.fg_color ≠ none ∧ bottom.fg_color ≠ none ∧
      top.fg_color ≠ bottom.fg_color ∧
      top.on_top_of bottom ≠ bottom.on_top_of top :=
  ⟨⟨some (.Ansi .Red), none, none, 0⟩, ⟨some (.Ansi .Blue), none, none, 0⟩,
    by decide, by decide, by decide, by decide⟩

/-- C10: `on_top_of` is associative: grouping of layering never changes the
merged style. -/
theorem on_top_of_assoc (a b c : Style) :
    a.on_top_of (b.on_top_of c) = (a.on_top_of b).on_top_of c := by
  simp [Style.on_top_of, Option.or_assoc, Nat.lor_assoc]

/-- C3: for every identity, `capabilities` equals the fixed table of spec
section 4.1 row by row, and every non-Dumb identity has the style and links
slots present. -/
theorem capabilities_match_table (p : TerminalProgram) :
    p.capabilities = spec_capability_table p ∧
    (p ≠ TerminalProgram.Dumb →
      (p.capabilities).style.isSome ∧ (p.capabilities).links.isSome) := by
  cases p <;> exact ⟨rfl, fun h => by first | exact absurd rfl h | exact ⟨rfl, rfl⟩⟩

/-- C3 witness: the WezTerm row — ANSI style, OSC 8 links, the iTerm2 image
protocol and no marks — and WezTerm is non-Dumb, so style and links are
present. -/
theorem capabilities_match_table_witness :
    TerminalProgram.WezTerm.capabilities =
      spec_capability_table TerminalProgram.WezTerm ∧
    (TerminalProgram.WezTerm.capabilities).style.isSome ∧
    (TerminalProgram.WezTerm.capabilities).links.isSome :=
  ⟨(capabilities_match_table TerminalProgram.WezTerm).1,
   (capabilities_match_table TerminalProgram.WezTerm).2 (by decide)⟩

/-- The trace of the rasterization pipeline is one of three fixed operation
sequences, depending on where the pipeline stops. -/
theorem render_svg_trace_cases (B : ResvgBackend) (svg : List Nat) :
    (render_svg_to_png_with_resvg B svg).2 = [.parse] ∨
    (render_svg_to_png_with_resvg B svg).2 = [.parse, .alloc] ∨
    (render_svg_to_png_with_resvg B svg).2 =
      [.parse, .alloc, .render, .encode] := by
  unfold render_svg_to_png_with_resvg parse_svg
  cases hfd : B.from_data svg with
  | error e => simp
  | ok t =>
      cases hpm : B.pixmap_new
          (B.to_int_size (B.from_usvg (B.convert_text t B.system_font_db))).width
          (B.to_int_size (B.from_usvg (B.convert_text t B.system_font_db))).height with
      | none => simp [hpm]
      | some p =>
          cases henc : B.encode_png
              (B.render (B.from_usvg (B.convert_text t B.system_font_db)) p) with
          | error err => simp [hpm, henc]
          | ok png => simp [hpm, henc]

/-- C5: the enabled-build pipeline returns an error value at each failure
point — `ParseError` when the input does not parse, `FailedToCreatePixmap`
carrying the rejected size when the surface cannot be allocated,
`EncodePngError` wrapping the encoder diagnostic when PNG encoding fails —
and performs each pipeline operation at most once (no retry on any path). -/
theorem render_svg_to_png_error_paths (B : ResvgBackend) (svg : List Nat) :
    (∀ e, B.from_data svg = .error e →
      (render_svg_to_png_with_resvg B svg).1 =
        .error (.ParseError e)) ∧
    (∀ t tr, parse_svg B svg = (.ok t, tr) →
      B.pixmap_new (B.to_int_size t).width (B.to_int_size t).height = none →
      (render_svg_to_png_with_resvg B svg).1 =
        .error (.FailedToCreatePixmap (B.to_int_size t))) ∧
    (∀ t tr p err, parse_svg B svg = (.ok t, tr) →
      B.pixmap_new (B.to_int_size t).width (B.to_int_size t).height = some p →
      B.encode_png (B.render t p) = .error err →
      (render_svg_to_png_with_resvg B svg).1 =
        .error (.EncodePngError err)) ∧
    (∀ op, ((render_svg_to_png_with_resvg B svg).2).count op ≤ 1) := by
  refine ⟨fun e he => ?_, fun t tr hp hpm => ?_, fun t tr p err hp hpm henc => ?_,
    fun op => ?_⟩
  · simp [render_svg_to_png_with_resvg, parse_svg, he]
  · simp [render_svg_to_png_with_resvg, hp, hpm]
  · simp [render_svg_to_png_with_resvg, hp, hpm, henc]
  · rcases render_svg_trace_cases B svg with h | h | h <;> rw [h] <;>
      cases op <;> decide

/-- C5 witness: a backend with a failing parser yields `ParseError`; one that
parses but cannot allocate yields `FailedToCreatePixmap` with the rejected
size; one whose encoder fails yields `EncodePngError` with its diagnostic;
and in the longest run the parse step is performed at most once. -/
theorem render_svg_to_png_error_paths_witness :
    (render_svg_to_png_with_resvg backend_parse_fail []).1 =
      .error (.ParseError "not an SVG") ∧
    (render_svg_to_png_with_resvg backend_alloc_fail []).1 =
      .error (.FailedToCreatePixmap ⟨0, 0⟩) ∧
    (render_svg_to_png_with_resvg backend_encode_fail []).1 =
      .error (.EncodePngError "png failure") ∧
    ((render_svg_to_png_with_resvg backend_encode_fail []).2).count
      PipelineOp.parse ≤ 1 :=
  ⟨(render_svg_to_png_error_paths backend_parse_fail []).1 "not an SVG" rfl,
   (render_svg_to_png_error_paths backend_alloc_fail []).2.1 ⟨0⟩ [.parse]
     rfl rfl,
   (render_svg_to_png_error_paths backend_encode_fail []).2.2.1 ⟨0⟩ [.parse]
     ⟨0⟩ "png failure" rfl rfl rfl,
   (render_svg_to_png_error_paths backend_encode_fail []).2.2.2
     PipelineOp.parse⟩

/-- C6: with rasterization compiled out, `render_svg_to_png` returns the
`Unsupported` error for every input, and its result does not depend on the
input at all (no parsing, no allocation, no other observable effect). -/
theorem render_svg_to_png_unsupported (svg svg2 : List Nat) :
    ImplementationNoSvg.render_svg_to_png svg =
      .error ⟨.Unsupported, "SVG rendering not enabled in this build"⟩ ∧
    ImplementationNoSvg.render_svg_to_png svg =
      ImplementationNoSvg.render_svg_to_png svg2 :=
  ⟨rfl, rfl⟩
